import Mathlib

/-!
Shallow embedding of the agenda service (`app.py`, `db.py`) for verification.

Conventions used throughout:
* Python integers are `Int`.  Python floor division `//` and modulo `%` with a
  positive divisor coincide with Lean's Euclidean `/` and `%` on `Int`, so we
  use those directly (every division below has a positive literal divisor).
* A Python `datetime` value is represented by the number of seconds since
  0001-01-01T00:00:00 (proleptic Gregorian), so its `toordinal()` is
  `t / 86400 + 1`.  Timezone decoration via `replace(tzinfo=...)` keeps the
  wall-clock value unchanged, so it is the identity in this model.
* Python strings are Lean `String`s; per-character operations are modelled on
  `String.data` (the list of characters).
-/

/-- Number of days before January 1 of `year` (CPython `_days_before_year`). -/
def days_before_year (year : Int) : Int :=
  let y := year - 1
  y * 365 + y / 4 - y / 100 + y / 400

/-- Gregorian leap-year test (CPython `_is_leap`). -/
def is_leap (year : Int) : Bool :=
  year % 4 == 0 && (year % 100 != 0 || year % 400 == 0)

/-- CPython `_DAYS_IN_MONTH`; index 0 is the unused placeholder `-1`. -/
def DAYS_IN_MONTH : List Int :=
  [-1, 31, 28, 31, 30, 31, 30, 31, 31, 30, 31, 30, 31]

/-- CPython `_DAYS_BEFORE_MONTH`; index 0 is the unused placeholder `-1`. -/
def DAYS_BEFORE_MONTH : List Int :=
  [-1, 0, 31, 59, 90, 120, 151, 181, 212, 243, 273, 304, 334]

/-- Days in the given month (CPython `_days_in_month`). -/
def days_in_month (year month : Int) : Int :=
  if month = 2 ∧ is_leap year then 29 else DAYS_IN_MONTH.getD month.toNat 0

/-- Days in `year` preceding the first of `month` (CPython `_days_before_month`). -/
def days_before_month (year month : Int) : Int :=
  DAYS_BEFORE_MONTH.getD month.toNat 0 + (if 2 < month ∧ is_leap year then 1 else 0)

/-- Proleptic Gregorian ordinal of a calendar date (CPython `_ymd2ord`);
0001-01-01 has ordinal 1. -/
def ymd2ord (year month day : Int) : Int :=
  days_before_year year + days_before_month year month + day

/-- Inverse of `ymd2ord` (CPython `_ord2ymd`): ordinal to (year, month, day).
`>> 5` is division by 32. -/
def ord2ymd (n : Int) : Int × Int × Int :=
  let n0 := n - 1
  let n400 := n0 / 146097
  let r400 := n0 % 146097
  let n100 := r400 / 36524
  let r100 := r400 % 36524
  let n4 := r100 / 1461
  let r4 := r100 % 1461
  let n1 := r4 / 365
  let rem := r4 % 365
  let year := n400 * 400 + n100 * 100 + n4 * 4 + n1 + 1
  if n1 = 4 ∨ n100 = 4 then
    (year - 1, 12, 31)
  else
    let leapyear := n1 == 3 && (n4 != 24 || n100 == 3)
    let month := (rem + 50) / 32
    let preceding :=
      DAYS_BEFORE_MONTH.getD month.toNat 0 + (if 2 < month ∧ leapyear then 1 else 0)
    let month2 := if rem < preceding then month - 1 else month
    let preceding2 :=
      if rem < preceding then
        preceding -
          (DAYS_IN_MONTH.getD month2.toNat 0 + (if month2 = 2 ∧ leapyear then 1 else 0))
      else preceding
    (year, month2, rem - preceding2 + 1)

/-- Calendar year containing the given ordinal (first component of `ord2ymd`;
a CPython `datetime` stores it as the `.year` attribute). -/
def ord2year (n : Int) : Int := (ord2ymd n).1

/-- A Python `datetime` value, as seconds since 0001-01-01T00:00:00. -/
abbrev DateTime := Int

/-- `datetime(y, m, d)` at midnight. -/
def py_datetime (year month day : Int) : DateTime :=
  (ymd2ord year month day - 1) * 86400

/-- `datetime.toordinal()`. -/
def toordinal (t : DateTime) : Int := t / 86400 + 1

/-- `datetime.weekday()`: Monday = 0 .. Sunday = 6 (CPython: `(ord + 6) % 7`). -/
def weekday (t : DateTime) : Int := (toordinal t + 6) % 7

/-- Calendar year of a `datetime` (its `.year` attribute). -/
def dt_year (t : DateTime) : Int := ord2year (toordinal t)

/-- Ordinal of the Monday starting ISO week 1 of `year`
(CPython `_isoweek1monday`; `THURSDAY = 3`). -/
def isoweek1monday (year : Int) : Int :=
  let firstday := ymd2ord year 1 1
  let firstweekday := (firstday + 6) % 7
  let week1monday := firstday - firstweekday
  if 3 < firstweekday then week1monday + 7 else week1monday

/-- CPython `datetime.isocalendar()` on an ordinal: (ISO year, ISO week, ISO weekday). -/
def isocalendar (today : Int) : Int × Int × Int :=
  let year := ord2year today
  let week1monday := isoweek1monday year
  let week := (today - week1monday) / 7
  let day := (today - week1monday) % 7
  if week < 0 then
    let year2 := year - 1
    let w1m2 := isoweek1monday year2
    (year2, (today - w1m2) / 7 + 1, (today - w1m2) % 7 + 1)
  else if 52 ≤ week ∧ isoweek1monday (year + 1) ≤ today then
    (year + 1, 1, day + 1)
  else
    (year, week + 1, day + 1)

/-- `app.py` line 25: `get_monday_of_iso_week(week, year)` =
`datetime(year, 1, 4) + timedelta(weeks=week-1, days=-simple.weekday())`. -/
def get_monday_of_iso_week (week year : Int) : DateTime :=
  let simple := py_datetime year 1 4
  simple + ((week - 1) * 7 - weekday simple) * 86400

/-- `app.py` line 34: `get_week_number(date)` = `date.isocalendar()[1]`. -/
def get_week_number (t : DateTime) : Int := (isocalendar (toordinal t)).2.1

/-- Number of ISO weeks in the ISO year `year` (52 or 53); a `(week, year)`
pair is a valid ISO-week designation exactly when `1 ≤ week` and
`week ≤ iso_weeks_in_year year`.  Stated from the ISO-8601 rule that week 1
contains January 4 (spec §4.1), via the Mondays that bound the ISO year. -/
def iso_weeks_in_year (year : Int) : Int :=
  (isoweek1monday (year + 1) - isoweek1monday year) / 7



/-! ### String helpers (Python `str` operations, modelled on the char list) -/

/-- Python `str.lower()`; per-character lowering (`Char.toLower` is the
ASCII case map, which covers the labels the service builds). -/
def py_lower (s : String) : String := String.mk (s.data.map Char.toLower)

/-- Python `str.replace(' ', '-')`: a single-character pattern replace is a
per-character map. -/
def py_replace_space_hyphen (s : String) : String :=
  String.mk (s.data.map (fun c => if c = ' ' then '-' else c))

/-- Python slicing `s[:n]`. -/
def py_take (s : String) (n : Nat) : String := String.mk (s.data.take n)

/-- Python `str.zfill(width)` for the sign-free strings used here. -/
def zfill (s : String) (width : Nat) : String :=
  if s.length < width then String.mk (List.replicate (width - s.length) '0') ++ s
  else s

/-- Zero-padded decimal rendering of a non-negative number, as `strftime`
field formatting. -/
def pad (n : Int) (width : Nat) : String := zfill (toString n) width

/-- `app.py` line 30: `format_date(date)` = `date.strftime("%Y%m%dT%H%M%SZ")`. -/
def format_date (t : DateTime) : String :=
  let ymd := ord2ymd (toordinal t)
  let secs := t % 86400
  pad ymd.1 4 ++ pad ymd.2.1 2 ++ pad ymd.2.2 2 ++ "T" ++
    pad (secs / 3600) 2 ++ pad (secs % 3600 / 60) 2 ++ pad (secs % 60) 2 ++ "Z"

/-- `app.py` line 38: `generate_uid(date, summary, suffix)` =
`f"{format_date(date)}-{summary.lower().replace(' ', '-')[:30]}{suffix}"`. -/
def generate_uid (date : DateTime) (summary suffix : String) : String :=
  let base := format_date date
  base ++ "-" ++ py_take (py_replace_space_hyphen (py_lower summary)) 30 ++ suffix

/-! ### Data model -/

/-- One row of the `agenda_items` table (`db.py`), as the dict produced by
`dict(row)` in `get_agenda_items`.  Fields the code reads unconditionally
(`start`, `end`, `thema`, `beschreibung`, `uid`, `dtstamp`, and the integer
columns) are modelled non-null; `top`, `url` and `status` are guarded by
truthiness checks in `app.py` and stay nullable.  The SQL column `end` is
spelled `end_` (`end` is reserved in Lean). -/
structure AgendaItem where
  id : Int
  year : Int
  week : Int
  start : String
  end_ : String
  top : Option String
  thema : String
  beschreibung : String
  url : Option String
  status : Option String
  namentliche_abstimmung : Int
  uid : String
  dtstamp : String
deriving DecidableEq, Repr

/-- A Python value stored in the row dict. -/
inductive PyVal where
  | none_ : PyVal
  | int : Int → PyVal
  | str : String → PyVal
deriving DecidableEq, Repr

/-- The dict `dict(row)` for one agenda item: keys in column order
(`db.py` schema), optional fields mapped to `None`. -/
def dictOf (it : AgendaItem) : List (String × PyVal) :=
  [("id", .int it.id),
   ("year", .int it.year),
   ("week", .int it.week),
   ("start", .str it.start),
   ("end", .str it.end_),
   ("top", match it.top with | none => .none_ | some s => .str s),
   ("thema", .str it.thema),
   ("beschreibung", .str it.beschreibung),
   ("url", match it.url with | none => .none_ | some s => .str s),
   ("status", match it.status with | none => .none_ | some s => .str s),
   ("namentliche_abstimmung", .int it.namentliche_abstimmung),
   ("uid", .str it.uid),
   ("dtstamp", .str it.dtstamp)]

/-! ### Python-semantics helpers -/

/-- Truthiness of an optional string parameter (`None` and `""` are falsy). -/
def truthy : Option String → Bool
  | none => false
  | some s => s ≠ ""

/-- Value of a list of decimal digit characters. -/
def digits_val (l : List Char) : Int :=
  l.foldl (fun a c => a * 10 + ((c.toNat : Int) - 48)) 0

/-- Python `int(s)` on the plain decimal strings relevant here (optional
leading minus, then digits); raises `ValueError` otherwise. -/
def pyint (s : String) : Except String Int :=
  match s.data with
  | '-' :: rest =>
    if rest ≠ [] ∧ rest.all Char.isDigit then .ok (-(digits_val rest))
    else .error ("ValueError: invalid literal for int() with base 10: " ++ s)
  | l =>
    if l ≠ [] ∧ l.all Char.isDigit then .ok (digits_val l)
    else .error ("ValueError: invalid literal for int() with base 10: " ++ s)

/-- SQLite `substr(s, start, len)` (1-indexed). -/
def sql_substr (s : String) (start len : Nat) : String :=
  String.mk ((s.data.drop (start - 1)).take len)

/-- Python `needle in hay` on strings: substring containment. -/
def py_in (needle hay : String) : Bool := decide (needle.data <:+: hay.data)

/-- Numeric value of a decimal digit character. -/
def digit_val (c : Char) : Int := (c.toNat : Int) - 48

/-- Validate components and build the `datetime`, as the `datetime`
constructor does (year 1–9999, month 1–12, day within the month). -/
def mk_checked_datetime (y mo d h mi se : Int) : Option DateTime :=
  if 1 ≤ y ∧ y ≤ 9999 ∧ 1 ≤ mo ∧ mo ≤ 12 ∧ 1 ≤ d ∧ d ≤ days_in_month y mo ∧
      0 ≤ h ∧ h < 24 ∧ 0 ≤ mi ∧ mi < 60 ∧ 0 ≤ se ∧ se < 60 then
    some ((ymd2ord y mo d - 1) * 86400 + h * 3600 + mi * 60 + se)
  else none

/-- `datetime.fromisoformat` on the canonical forms the store contains:
`YYYY-MM-DD`, optionally followed by a separator (`T` or space) and
`HH:MM` or `HH:MM:SS`.  Malformed strings yield `none` (Python raises
`ValueError`). -/
def fromisoformat (s : String) : Option DateTime :=
  match s.data with
  | [a, b, c, d, '-', e, f, '-', g, h] =>
    if [a, b, c, d, e, f, g, h].all Char.isDigit then
      mk_checked_datetime (digit_val a * 1000 + digit_val b * 100 + digit_val c * 10 + digit_val d)
        (digit_val e * 10 + digit_val f) (digit_val g * 10 + digit_val h) 0 0 0
    else none
  | [a, b, c, d, '-', e, f, '-', g, h, sep, i, j, ':', k, l] =>
    if (sep = 'T' ∨ sep = ' ') ∧ [a, b, c, d, e, f, g, h, i, j, k, l].all Char.isDigit then
      mk_checked_datetime (digit_val a * 1000 + digit_val b * 100 + digit_val c * 10 + digit_val d)
        (digit_val e * 10 + digit_val f) (digit_val g * 10 + digit_val h)
        (digit_val i * 10 + digit_val j) (digit_val k * 10 + digit_val l) 0
    else none
  | [a, b, c, d, '-', e, f, '-', g, h, sep, i, j, ':', k, l, ':', m, n] =>
    if (sep = 'T' ∨ sep = ' ') ∧ [a, b, c, d, e, f, g, h, i, j, k, l, m, n].all Char.isDigit then
      mk_checked_datetime (digit_val a * 1000 + digit_val b * 100 + digit_val c * 10 + digit_val d)
        (digit_val e * 10 + digit_val f) (digit_val g * 10 + digit_val h)
        (digit_val i * 10 + digit_val j) (digit_val k * 10 + digit_val l)
        (digit_val m * 10 + digit_val n)
    else none
  | _ => none

/-! ### Calendar builder (`create_ical` and helpers)

`icalendar` events are modelled as records of the properties the code sets;
`replace(tzinfo=berlin_tz)` keeps the wall-clock value and is the identity
here.  `datetime.utcnow()` is passed in as the explicit parameter `now_utc`
(it only feeds the `dtstamp` property). -/

/-- A main agenda event (`app.py` lines 212–224). -/
structure MainEvent where
  uid : String
  dtstamp : DateTime
  dtstart : DateTime
  dtend : DateTime
  summary : String
  description : String
  url : Option String
deriving DecidableEq, Repr

/-- A named-vote companion event (`create_na_event`). -/
structure NaEvent where
  uid : String
  dtstamp : DateTime
  dtstart : DateTime
  dtend : DateTime
  summary : String
  description : String
  url : Option String
  hasAlarm : Bool
deriving DecidableEq, Repr

/-- A sitting-week all-day event (`add_sitting_week_events`); `dtstart` and
`dtend` are `.date()` values, kept as ordinals. -/
structure SwEvent where
  uid : String
  dtstamp : DateTime
  dtstartOrd : Int
  dtendOrd : Int
  summary : String
deriving DecidableEq, Repr

/-- A component added to the calendar, tagged by which builder created it. -/
inductive CalComponent where
  | main : MainEvent → CalComponent
  | na : NaEvent → CalComponent
  | sw : SwEvent → CalComponent
deriving DecidableEq, Repr

/-- Render an optional string the way a Python f-string renders the value
(`None` prints as `"None"`). -/
def py_fstr : Option String → String
  | none => "None"
  | some s => s

/-- `app.py` line 236: `create_na_event(item, dtend, berlin_tz, add_alarm)`. -/
def create_na_event (item : AgendaItem) (dtend : DateTime) (add_alarm : Bool)
    (now_utc : DateTime) : NaEvent :=
  let na_start := dtend
  let na_end := na_start + 15 * 60
  { uid := generate_uid na_start ("Namentliche Abstimmung: " ++ item.thema) ""
    dtstamp := now_utc
    dtstart := na_start
    dtend := na_end
    summary := "Namentliche Abstimmung: " ++ item.thema
    description := "Namentliche Abstimmung zu " ++ py_fstr item.top ++ ": " ++
      item.thema ++ ".\n\n" ++ item.beschreibung
    url := if truthy item.url then item.url else none
    hasAlarm := add_alarm }

/-- Python `set.add` on a deterministically ordered set representation
(insertion order; a CPython `set` holds the same elements unordered). -/
def setInsert {α : Type} [DecidableEq α] (l : List α) (a : α) : List α :=
  if a ∈ l then l else l ++ [a]

/-- The week key stored in `weeks_with_items`: the code stores the string
`f"{dtstart.year}-{week_number}"` and later re-parses it with
`map(int, week.split("-"))`; since both components are non-negative decimal
numbers the round trip is exact, so the key is kept as the pair. -/
def week_key (dtstart : DateTime) : Int × Int :=
  (dt_year dtstart, get_week_number dtstart)

/-- `app.py` line 270: one all-day event per stored week key. -/
def add_sitting_week_events (now_utc : DateTime) (weeks_with_items : List (Int × Int)) :
    List CalComponent :=
  weeks_with_items.map (fun wk =>
    let monday := get_monday_of_iso_week wk.2 wk.1
    let friday := monday + 4 * 86400
    CalComponent.sw
      { uid := generate_uid monday "Sitzungswoche" ""
        dtstamp := now_utc
        dtstartOrd := toordinal monday
        dtendOrd := toordinal (friday + 86400)
        summary := "Sitzungswoche" })

/-- The per-item loop of `create_ical` (lines 202–228): parses the
timestamps, clamps `dtend`, records the week key, emits the main event and
the optional named-vote companion.  Parse failures propagate as the
`ValueError` that `datetime.fromisoformat` raises. -/
def build_items (include_na na_alarm : Bool) (now_utc : DateTime) :
    List AgendaItem → List (Int × Int) →
    Except String (List CalComponent × List (Int × Int))
  | [], weeks => .ok ([], weeks)
  | item :: rest, weeks =>
    match fromisoformat item.start, fromisoformat item.end_ with
    | some dtstart, some dtend0 =>
      let dtend := if dtend0 ≤ dtstart then dtstart + 60 else dtend0
      let weeks2 := setInsert weeks (week_key dtstart)
      let ev : MainEvent :=
        { uid := item.uid
          dtstamp := now_utc
          dtstart := dtstart
          dtend := dtend
          summary := if truthy item.top then py_fstr item.top ++ ": " ++ item.thema
            else item.thema
          description := item.beschreibung
          url := if truthy item.url then item.url else none }
      let head := CalComponent.main ev ::
        (if include_na ∧ item.namentliche_abstimmung ≠ 0 then
          [CalComponent.na (create_na_event item dtend na_alarm now_utc)]
        else [])
      match build_items include_na na_alarm now_utc rest weeks2 with
      | .ok (comps, weeksOut) => .ok (head ++ comps, weeksOut)
      | .error e => .error e
    | _, _ => .error "ValueError: Invalid isoformat string"

/-- `app.py` line 183: `create_ical`.  The calendar-level metadata is
constant and not part of the component list. -/
def create_ical (agenda_items : List AgendaItem) (include_na na_alarm show_sw : Bool)
    (now_utc : DateTime) : Except String (List CalComponent) :=
  match build_items include_na na_alarm now_utc agenda_items [] with
  | .ok (comps, weeks_with_items) =>
    .ok (comps ++ (if show_sw then add_sitting_week_events now_utc weeks_with_items else []))
  | .error e => .error e

/-! ### Structural serializers -/

/-- An `xml.etree.ElementTree` element: tag, text, children. -/
inductive Xml where
  | elem : String → Option String → List Xml → Xml

/-- Tag of an element. -/
def Xml.tag : Xml → String
  | .elem t _ _ => t

/-- Children of an element. -/
def Xml.children : Xml → List Xml
  | .elem _ _ cs => cs

/-- `str(value)` for a dict value (only applied to non-null values). -/
def py_str_of : PyVal → String
  | .none_ => "None"
  | .int n => toString n
  | .str s => s

/-- The `<event>` element built for one item (`app.py` lines 288–291):
one child per non-null field, null fields omitted. -/
def xml_event (it : AgendaItem) : Xml :=
  .elem "event" none ((dictOf it).filterMap (fun kv =>
    match kv.2 with
    | .none_ => none
    | v => some (.elem kv.1 (some (py_str_of v)) [])))

/-- `app.py` line 285: `create_xml`. -/
def create_xml (agenda_items : List AgendaItem) : Xml :=
  .elem "agenda" none (agenda_items.map xml_event)

/-- A JSON value, as produced by `json.dumps`. -/
inductive JValue where
  | null : JValue
  | int : Int → JValue
  | str : String → JValue
  | arr : List JValue → JValue
  | obj : List (String × JValue) → JValue

/-- JSON rendering of a dict value: `None` becomes `null`, every key kept. -/
def jval_of : PyVal → JValue
  | .none_ => .null
  | .int n => .int n
  | .str s => .str s

/-- The JSON object serialized for one item (all fields, nulls included). -/
def json_fields (it : AgendaItem) : List (String × JValue) :=
  (dictOf it).map (fun kv => (kv.1, jval_of kv.2))

/-- `json.dumps(agenda_items)` (`app.py` line 169), structurally. -/
def create_json (agenda_items : List AgendaItem) : JValue :=
  .arr (agenda_items.map (fun it => .obj (json_fields it)))

/-- The CSV cell written for a dict value (`csv` writes `None` as empty). -/
def csv_cell : PyVal → String
  | .none_ => ""
  | .int n => toString n
  | .str s => s

/-- The data row written for one item. -/
def csv_row (it : AgendaItem) : List String :=
  (dictOf it).map (fun kv => csv_cell kv.2)

/-- `app.py` line 295: `create_csv`, modelled at row level (header row from
`agenda_items[0].keys()`, then one row per item).  On an empty list the
subscript `agenda_items[0]` raises `IndexError`. -/
def create_csv (agenda_items : List AgendaItem) : Except String (List (List String)) :=
  match agenda_items with
  | [] => .error "IndexError: list index out of range"
  | first :: _ =>
    .ok (((dictOf first).map Prod.fst) :: agenda_items.map csv_row)

/-! ### Dispatch and request handling -/

/-- The serialized payload handed back by `format_agenda_response`,
kept structural per format. -/
inductive ResponseData where
  | str : String → ResponseData
  | cal : List CalComponent → ResponseData
  | json : JValue → ResponseData
  | xml : Xml → ResponseData
  | csv : List (List String) → ResponseData

/-- `app.py` line 158: `format_agenda_response` maps the format token to a
serializer and content type; unsupported tokens raise `ValueError`. -/
def format_agenda_response (format : String) (agenda_items : List AgendaItem)
    (include_na na_alarm show_sw : Bool) (now_utc : DateTime) :
    Except String (ResponseData × String) :=
  if format = "ical" ∨ format = "ics" then
    match create_ical agenda_items include_na na_alarm show_sw now_utc with
    | .ok comps => .ok (.cal comps, "text/calendar; charset=utf-8")
    | .error e => .error e
  else if format = "json" then
    .ok (.json (create_json agenda_items), "application/json; charset=utf-8")
  else if format = "xml" then
    .ok (.xml (create_xml agenda_items), "application/xml; charset=utf-8")
  else if format = "csv" then
    match create_csv agenda_items with
    | .ok rows => .ok (.csv rows, "text/csv; charset=utf-8")
    | .error e => .error e
  else .error ("ValueError: Unsupported format: " ++ format)

/-- `app.py` line 134: `get_agenda_items`.  `conn` is the full table
contents; the SQL `WHERE` clauses become list filters.  In the
day-only branch the code evaluates `month.zfill(2)` although `month` is
`None` there, which raises `AttributeError`. -/
def get_agenda_items (rows : List AgendaItem) (year : Int)
    (week month day : Option String) : Except String (List AgendaItem) :=
  if truthy week then
    match pyint ((week.getD "")) with
    | .ok w => .ok (rows.filter (fun r => r.year = year ∧ r.week = w))
    | .error e => .error e
  else if truthy month then
    .ok (rows.filter (fun r =>
      r.year = year ∧ sql_substr r.start 6 2 = zfill (month.getD "") 2))
  else if truthy day then
    match month with
    | none => .error "AttributeError: NoneType object has no attribute zfill"
    | some m => .ok (rows.filter (fun r =>
        r.year = year ∧ sql_substr r.start 6 2 = zfill m 2 ∧
          sql_substr r.start 9 2 = zfill (day.getD "") 2))
  else
    .ok (rows.filter (fun r => r.year = year))

/-- Query parameters of a request (`request.args`); absent keys are `none`. -/
structure Params where
  year : Option String
  week : Option String
  month : Option String
  day : Option String
  status : Option String
  na : Option String
  naAlarm : Option String
  showSW : Option String
deriving Repr

/-- The status filter applied in `serve_agenda` lines 121–126:
keep items whose `status` is truthy and contains the requested string. -/
def filter_by_status (agenda_items : List AgendaItem) (status : String) :
    List AgendaItem :=
  agenda_items.filter (fun item => truthy item.status && py_in status (item.status.getD ""))

/-- `app.py` line 101: `serve_agenda`.  `rows` is the table contents, `now`
stands for both `datetime.now()` calls (lines 102 and 111), and the result
is the `(data, status, content-type)` triple. -/
def serve_agenda (rows : List AgendaItem) (format : String) (p : Params)
    (now : DateTime) : Except String (ResponseData × Int × String) :=
  match (match p.year with | some s => pyint s | none => .ok (dt_year now)) with
  | .error e => .error e
  | .ok year =>
    let current_week := get_week_number now
    match (if year > dt_year now then .ok true
      else if year = dt_year now ∧ truthy p.week then
        match pyint (p.week.getD "") with
        | .ok w => .ok (w > current_week)
        | .error e => .error e
      else .ok false : Except String Bool) with
    | .error e => .error e
    | .ok futuristic =>
      if futuristic then
        .ok (.str "Keine Daten für zukünftige Wochen", 400, "text/plain")
      else
        match get_agenda_items rows year p.week p.month p.day with
        | .error e => .error e
        | .ok agenda_items =>
          let agenda_items :=
            if truthy p.status then filter_by_status agenda_items (p.status.getD "")
            else agenda_items
          match format_agenda_response format agenda_items (p.na = some "true")
            (p.naAlarm = some "true") (p.showSW = some "true") now with
          | .error e => .error e
          | .ok (data, content_type) => .ok (data, 200, content_type)

/-! ### Derived views of the build output, used to state the claims -/

/-- The named-vote companion events among the calendar components. -/
def na_components (comps : List CalComponent) : List NaEvent :=
  comps.filterMap (fun c => match c with | .na e => some e | _ => none)

/-- The sitting-week events among the calendar components. -/
def sw_components (comps : List CalComponent) : List SwEvent :=
  comps.filterMap (fun c => match c with | .sw e => some e | _ => none)

/-- The (possibly clamped) end time of an item's main event
(`app.py` lines 203–207), under the convention that the timestamps parse. -/
def clamped_end (it : AgendaItem) : DateTime :=
  let s := (fromisoformat it.start).getD 0
  let e := (fromisoformat it.end_).getD 0
  if e ≤ s then s + 60 else e

/-- The week key recorded for an item (calendar year of `dtstart` paired
with its ISO week number, `app.py` lines 209–210), under the convention
that the timestamps parse. -/
def item_week_key (it : AgendaItem) : Int × Int :=
  week_key ((fromisoformat it.start).getD 0)

/-- The ISO (year, week) pair of an item's start, as `isocalendar` returns
it — ISO year, not calendar year. -/
def item_iso_pair (it : AgendaItem) : Int × Int :=
  ((isocalendar (toordinal ((fromisoformat it.start).getD 0))).1,
   (isocalendar (toordinal ((fromisoformat it.start).getD 0))).2.1)

/-! ### Sample records used by witnesses and counterexamples -/

/-- A sample item: multi-valued status string, recorded-vote flag set. -/
def item_beratung : AgendaItem :=
  { id := 1, year := 2024, week := 2,
    start := "2024-01-10T09:00:00", end_ := "2024-01-10T10:00:00",
    top := some "TOP 1", thema := "Debatte", beschreibung := "Aussprache",
    url := some "https://example.org/1", status := some "in Beratung, erledigt",
    namentliche_abstimmung := 1, uid := "uid-1", dtstamp := "2024-01-01T00:00:00" }

/-- A sample item with null optional fields, in a different week. -/
def item_nulls : AgendaItem :=
  { id := 2, year := 2024, week := 5,
    start := "2024-02-01T11:00:00", end_ := "2024-02-01T12:00:00",
    top := none, thema := "Fragestunde", beschreibung := "Befragung",
    url := none, status := none,
    namentliche_abstimmung := 0, uid := "uid-2", dtstamp := "2024-01-01T00:00:00" }

/-- An item whose start lies in ISO week 1 of 2025 but calendar year 2024. -/
def item_dec : AgendaItem :=
  { id := 3, year := 2024, week := 1,
    start := "2024-12-30T10:00:00", end_ := "2024-12-30T11:00:00",
    top := none, thema := "Sondersitzung", beschreibung := "",
    url := none, status := none,
    namentliche_abstimmung := 0, uid := "uid-3", dtstamp := "2024-12-01T00:00:00" }

/-- An item in the same ISO week as `item_dec` but calendar year 2025. -/
def item_jan : AgendaItem :=
  { id := 4, year := 2025, week := 1,
    start := "2025-01-02T10:00:00", end_ := "2025-01-02T11:00:00",
    top := none, thema := "Fortsetzung", beschreibung := "",
    url := none, status := none,
    namentliche_abstimmung := 0, uid := "uid-4", dtstamp := "2024-12-01T00:00:00" }

-- Decidable equality for `Except`, used to evaluate closed runs.
deriving instance DecidableEq for Except

/-- The components of a successful calendar build (empty on error). -/
def ok_components (e : Except String (List CalComponent)) : List CalComponent :=
  match e with
  | .ok comps => comps
  | .error _ => []

/-- The fixed rejection response for future weeks (`app.py` line 117). -/
def rejection_response : ResponseData × Int × String :=
  (.str "Keine Daten für zukünftige Wochen", 400, "text/plain")

/-- Concrete request used by the C7 witness. -/
def wit_params : Params := ⟨some "2030", none, none, none, none, none, none, none⟩

/-- Concrete clock instant used by the C7 witness. -/
def wit_now : DateTime := py_datetime 2026 6 15

/-! ### Calendar arithmetic lemmas -/

section CalendarLemmas

set_option maxHeartbeats 2000000

/-- Mixed-radix decomposition of `year - 1` into 400/100/4/1-year digits,
together with the closed form of `days_before_year`. -/
lemma dby_decomp (y : Int) : ∃ a b c d : Int,
    y - 1 = 400 * a + 100 * b + 4 * c + d ∧
    0 ≤ b ∧ b ≤ 3 ∧ 0 ≤ c ∧ c ≤ 24 ∧ 0 ≤ d ∧ d ≤ 3 ∧
    days_before_year y = 146097 * a + 36524 * b + 1461 * c + 365 * d := by
  refine ⟨(y-1)/400, (y-1)%400/100, (y-1)%400%100/4, (y-1)%400%100%4,
    ?_, ?_, ?_, ?_, ?_, ?_, ?_, ?_⟩ <;> (try simp only [days_before_year]) <;> omega

/-- Length of year `y` in days, with the leap-year condition spelled out. -/
lemma dby_succ (y : Int) : days_before_year (y + 1) =
    days_before_year y + 365 +
      (if y % 4 = 0 ∧ (y % 100 ≠ 0 ∨ y % 400 = 0) then 1 else 0) := by
  simp only [days_before_year]
  split <;> omega

/-- Evaluation of the year component of `ord2ymd` on an ordinal presented in
digit form: the divmod chain recovers the year digits (with the documented
end-of-cycle corrections). -/
lemma ord2ymd_fst_eval (a b c d E n : Int)
    (hb : 0 ≤ b ∧ b ≤ 3) (hc : 0 ≤ c ∧ c ≤ 24) (hd : 0 ≤ d ∧ d ≤ 3)
    (hE0 : 0 ≤ E) (hE1 : E ≤ 365)
    (hleap : E = 365 → d = 3 ∧ (c ≠ 24 ∨ b = 3))
    (hn : n - 1 = 146097 * a + 36524 * b + 1461 * c + 365 * d + E) :
    (ord2ymd n).1 = 400 * a + 100 * b + 4 * c + d + 1 := by
  have h400 : (n - 1) / 146097 = a ∧
      (n - 1) % 146097 = 36524 * b + 1461 * c + 365 * d + E := by
    constructor <;> omega
  by_cases hcent : c = 24 ∧ d = 3 ∧ E = 365
  · have h100 : (n - 1) % 146097 / 36524 = b + 1 ∧
        (n - 1) % 146097 % 36524 = 0 := by
      constructor <;> omega
    have hb3 : b = 3 := by
      have := hleap hcent.2.2
      omega
    simp only [ord2ymd]
    split
    · omega
    · rename_i h
      push_neg at h
      omega
  · have h100 : (n - 1) % 146097 / 36524 = b ∧
        (n - 1) % 146097 % 36524 = 1461 * c + 365 * d + E := by
      push_neg at hcent
      constructor <;> omega
    have h4 : (n - 1) % 146097 % 36524 / 1461 = c ∧
        (n - 1) % 146097 % 36524 % 1461 = 365 * d + E := by
      push_neg at hcent
      constructor <;> omega
    simp only [ord2ymd]
    split
    · rename_i h
      rcases h with h | h <;> omega
    · rename_i h
      push_neg at h
      omega

/-- `ord2year` is correct: an ordinal lying within year `y` is mapped to `y`. -/
lemma ord2year_eq (y n : Int)
    (h1 : days_before_year y < n) (h2 : n ≤ days_before_year (y + 1)) :
    ord2year n = y := by
  obtain ⟨a, b, c, d, hy, hb0, hb1, hc0, hc1, hd0, hd1, hD⟩ := dby_decomp y
  rw [dby_succ y] at h2
  have hmod : (y % 4 = 0 ∧ (y % 100 ≠ 0 ∨ y % 400 = 0)) ↔
      (d = 3 ∧ (c ≠ 24 ∨ b = 3)) := by omega
  have hchain := ord2ymd_fst_eval a b c d (n - 1 - days_before_year y) n
    ⟨hb0, hb1⟩ ⟨hc0, hc1⟩ ⟨hd0, hd1⟩
    (by omega)
    (by split at h2 <;> omega)
    (by intro hE; rw [← hmod]; split at h2 <;> omega)
    (by omega)
  rw [ord2year, hchain]
  omega

/-- January dates: month 1 contributes no leading days. -/
lemma ymd2ord_jan (y d : Int) : ymd2ord y 1 d = days_before_year y + d := by
  have h1 : days_before_month y 1 = 0 := by
    simp [days_before_month, DAYS_BEFORE_MONTH]
  simp [ymd2ord, h1]

/-- Year lengths, as plain bounds. -/
lemma dby_succ_bounds (y : Int) :
    days_before_year y + 365 ≤ days_before_year (y + 1) ∧
    days_before_year (y + 1) ≤ days_before_year y + 366 := by
  simp only [days_before_year]
  omega

/-- `isoweek1monday` lies within 3 days of January 1 and is a Monday
(ordinal ≡ 1 mod 7). -/
lemma w1m_spec (y : Int) :
    days_before_year y - 2 ≤ isoweek1monday y ∧
    isoweek1monday y ≤ days_before_year y + 4 ∧
    isoweek1monday y % 7 = 1 := by
  simp only [isoweek1monday, ymd2ord_jan]
  split <;> omega

/-- An ISO year spans 52 or 53 whole weeks between consecutive week-1 Mondays. -/
lemma weeks_spec (y : Int) :
    7 * iso_weeks_in_year y = isoweek1monday (y + 1) - isoweek1monday y ∧
    (iso_weeks_in_year y = 52 ∨ iso_weeks_in_year y = 53) := by
  have h1 := w1m_spec y
  have h2 := w1m_spec (y + 1)
  have h3 := dby_succ_bounds y
  simp only [iso_weeks_in_year]
  omega

/-- The ordinal computed by `get_monday_of_iso_week` is
`isoweek1monday year + (week - 1) * 7`. -/
lemma monday_ord (week y : Int) :
    toordinal (get_monday_of_iso_week week y) = isoweek1monday y + (week - 1) * 7 := by
  simp only [get_monday_of_iso_week, py_datetime, weekday, toordinal, isoweek1monday,
    ymd2ord_jan]
  split <;> omega

/-- `isocalendar` on an ordinal that lies in calendar year `y`, between the
week-1 Mondays of `y` and `y + 1`. -/
lemma isocal_week_in_year (y d : Int) (hyr : ord2year d = y)
    (hlo : isoweek1monday y ≤ d) (hhi : d < isoweek1monday (y + 1)) :
    (isocalendar d).2.1 = (d - isoweek1monday y) / 7 + 1 := by
  simp only [isocalendar, hyr]
  split
  · exfalso
    omega
  · split
    · exfalso
      rename_i h h2
      exact absurd h2.2 (by omega)
    · rfl

/-- `isocalendar` at a week-1 Monday that falls in the preceding calendar
year: the `week >= 52` correction fires and returns week 1. -/
lemma isocal_week_at_w1m (y : Int) (hyr : ord2year (isoweek1monday y) = y - 1) :
    (isocalendar (isoweek1monday y)).2.1 = 1 := by
  have hw := weeks_spec (y - 1)
  have hsub : y - 1 + 1 = y := by omega
  rw [hsub] at hw
  simp only [isocalendar, hyr, hsub]
  split
  · exfalso
    omega
  · split
    · rfl
    · exfalso
      rename_i h h2
      push_neg at h2
      have := h2 (by omega)
      omega

/-- The ISO week number of `isoweek1monday year + (week - 1) * 7` is `week`,
for every valid week index. -/
lemma monday_week_number (year week : Int)
    (hw1 : 1 ≤ week) (hw2 : week ≤ iso_weeks_in_year year) :
    (isocalendar (isoweek1monday year + (week - 1) * 7)).2.1 = week := by
  have hw1m := w1m_spec year
  have hws := weeks_spec year
  by_cases hcase : days_before_year year < isoweek1monday year + (week - 1) * 7
  · have hy : ord2year (isoweek1monday year + (week - 1) * 7) = year := by
      apply ord2year_eq year _ hcase
      have h2 := w1m_spec (year + 1)
      omega
    have hiso := isocal_week_in_year year (isoweek1monday year + (week - 1) * 7) hy
      (by omega)
      (by have h2 := w1m_spec (year + 1); omega)
    rw [hiso]
    omega
  · push_neg at hcase
    have hweek1 : week = 1 := by omega
    subst hweek1
    have hd : isoweek1monday year + (1 - 1) * 7 = isoweek1monday year := by ring
    rw [hd]
    have hprev := dby_succ_bounds (year - 1)
    have hsub : year - 1 + 1 = year := by omega
    rw [hsub] at hprev
    have hyy : ord2year (isoweek1monday year) = year - 1 := by
      apply ord2year_eq
      · omega
      · rw [hsub]
        omega
    exact isocal_week_at_w1m year hyy

end CalendarLemmas

/-! ### Helper lemmas -/

@[simp] lemma na_components_nil : na_components [] = [] := rfl

@[simp] lemma na_components_cons_main (e : MainEvent) (l : List CalComponent) :
    na_components (.main e :: l) = na_components l := rfl

@[simp] lemma na_components_cons_na (e : NaEvent) (l : List CalComponent) :
    na_components (.na e :: l) = e :: na_components l := rfl

@[simp] lemma na_components_cons_sw (e : SwEvent) (l : List CalComponent) :
    na_components (.sw e :: l) = na_components l := rfl

@[simp] lemma na_components_append (l1 l2 : List CalComponent) :
    na_components (l1 ++ l2) = na_components l1 ++ na_components l2 :=
  List.filterMap_append l1 l2 _

@[simp] lemma sw_components_nil : sw_components [] = [] := rfl

@[simp] lemma sw_components_cons_main (e : MainEvent) (l : List CalComponent) :
    sw_components (.main e :: l) = sw_components l := rfl

@[simp] lemma sw_components_cons_na (e : NaEvent) (l : List CalComponent) :
    sw_components (.na e :: l) = sw_components l := rfl

@[simp] lemma sw_components_cons_sw (e : SwEvent) (l : List CalComponent) :
    sw_components (.sw e :: l) = e :: sw_components l := rfl

@[simp] lemma sw_components_append (l1 l2 : List CalComponent) :
    sw_components (l1 ++ l2) = sw_components l1 ++ sw_components l2 :=
  List.filterMap_append l1 l2 _

/-- The per-item loop of `create_ical`, characterised: it succeeds when all
timestamps parse, accumulates the week keys left to right, emits one
named-vote companion per flagged item exactly when `include_na` is set, and
emits no sitting-week events. -/
lemma build_items_spec (include_na na_alarm : Bool) (now : DateTime)
    (items : List AgendaItem) : ∀ (weeks : List (Int × Int)),
    (∀ it ∈ items, (fromisoformat it.start).isSome ∧ (fromisoformat it.end_).isSome) →
    ∃ comps weeksOut,
      build_items include_na na_alarm now items weeks = .ok (comps, weeksOut) ∧
      weeksOut = items.foldl (fun acc it => setInsert acc (item_week_key it)) weeks ∧
      na_components comps = (if include_na then
        (items.filter (fun it => it.namentliche_abstimmung ≠ 0)).map
          (fun it => create_na_event it (clamped_end it) na_alarm now) else []) ∧
      sw_components comps = [] := by
  induction items with
  | nil =>
    intro weeks h
    refine ⟨[], weeks, rfl, rfl, ?_, rfl⟩
    simp
  | cons item rest ih =>
    intro weeks h
    obtain ⟨hs, he⟩ := h item (by simp)
    obtain ⟨ds, hds⟩ := Option.isSome_iff_exists.mp hs
    obtain ⟨de, hde⟩ := Option.isSome_iff_exists.mp he
    obtain ⟨comps, weeksOut, hbuild, hweeks, hna, hsw⟩ :=
      ih (setInsert weeks (week_key ds)) (fun it hit => h it (by simp [hit]))
    have hkey : item_week_key item = week_key ds := by
      simp [item_week_key, hds]
    have hclamp : clamped_end item = if de ≤ ds then ds + 60 else de := by
      simp [clamped_end, hds, hde]
    refine ⟨(CalComponent.main
        { uid := item.uid, dtstamp := now, dtstart := ds,
          dtend := if de ≤ ds then ds + 60 else de,
          summary := if truthy item.top then py_fstr item.top ++ ": " ++ item.thema
            else item.thema,
          description := item.beschreibung,
          url := if truthy item.url then item.url else none } ::
      (if include_na ∧ item.namentliche_abstimmung ≠ 0 then
          [CalComponent.na (create_na_event item (if de ≤ ds then ds + 60 else de)
            na_alarm now)]
        else [])) ++ comps, weeksOut, ?_, ?_, ?_, ?_⟩
    · simp only [build_items, hds, hde, hbuild]
    · rw [hweeks, List.foldl_cons, hkey]
    · by_cases hinc : include_na
      · by_cases hflag : item.namentliche_abstimmung ≠ 0
        · simp [hinc, hflag, hna, hclamp, List.filter_cons]
        · simp only [ne_eq, not_not] at hflag
          simp [hinc, hflag, hna, List.filter_cons]
      · simp [hinc, hna]
    · by_cases hinc : include_na <;> by_cases hflag : item.namentliche_abstimmung ≠ 0 <;>
        simp [hinc, hflag, hsw]

lemma setInsert_toFinset {α : Type} [DecidableEq α] (l : List α) (a : α) :
    (setInsert l a).toFinset = insert a l.toFinset := by
  simp only [setInsert]
  split
  · rename_i h
    rw [Finset.insert_eq_self.mpr (by simpa using h)]
  · ext x
    simp [or_comm]

lemma setInsert_nodup {α : Type} [DecidableEq α] {l : List α} (h : l.Nodup) (a : α) :
    (setInsert l a).Nodup := by
  simp only [setInsert]
  split
  · exact h
  · rename_i hmem
    simpa [List.nodup_append] using ⟨h, by simpa using hmem⟩

lemma foldl_setInsert_toFinset {α : Type} [DecidableEq α] (l : List α) :
    ∀ acc : List α, (l.foldl setInsert acc).toFinset = acc.toFinset ∪ l.toFinset := by
  induction l with
  | nil => intro acc; simp
  | cons a l ih =>
    intro acc
    rw [List.foldl_cons, ih, setInsert_toFinset]
    ext x
    simp [or_comm, or_assoc, or_left_comm]

lemma foldl_setInsert_nodup {α : Type} [DecidableEq α] (l : List α) :
    ∀ acc : List α, acc.Nodup → (l.foldl setInsert acc).Nodup := by
  induction l with
  | nil => intro acc h; exact h
  | cons a l ih => intro acc h; exact ih _ (setInsert_nodup h a)

/-- Inserting a list of keys into an empty set, set-wise, keeps exactly the
distinct keys. -/
lemma foldl_setInsert_length {α : Type} [DecidableEq α] (l : List α) :
    (l.foldl setInsert []).length = l.dedup.length := by
  have h1 : (l.foldl setInsert []).Nodup := foldl_setInsert_nodup l [] (by simp)
  have h2 := foldl_setInsert_toFinset l []
  calc (l.foldl setInsert []).length
      = (l.foldl setInsert []).toFinset.card := (List.toFinset_card_of_nodup h1).symm
    _ = l.toFinset.card := by rw [h2]; simp
    _ = l.dedup.length := List.card_toFinset l

lemma foldl_setInsert_key_length {α β : Type} [DecidableEq β] (f : α → β) (l : List α) :
    (l.foldl (fun acc it => setInsert acc (f it)) []).length = ((l.map f).dedup).length := by
  rw [← foldl_setInsert_length, List.foldl_map]

lemma sw_components_of_map {α : Type} (g : α → SwEvent) (w : List α) :
    sw_components (w.map (fun a => CalComponent.sw (g a))) = w.map g := by
  induction w <;> simp_all

lemma na_components_sitting_weeks (now : DateTime) (w : List (Int × Int)) :
    na_components (add_sitting_week_events now w) = [] := by
  simp only [add_sitting_week_events]
  induction w <;> simp_all

/-- `add_sitting_week_events` emits exactly one event per stored key. -/
lemma sw_len_of_sitting (now : DateTime) (w : List (Int × Int)) :
    (sw_components (add_sitting_week_events now w)).length = w.length := by
  simp only [add_sitting_week_events]
  rw [sw_components_of_map]
  simp

/-- `create_ical`, characterised via `build_items_spec`. -/
lemma create_ical_spec (include_na na_alarm show_sw : Bool) (now : DateTime)
    (items : List AgendaItem)
    (h : ∀ it ∈ items, (fromisoformat it.start).isSome ∧ (fromisoformat it.end_).isSome) :
    ∃ comps, create_ical items include_na na_alarm show_sw now = .ok comps ∧
      na_components comps = (if include_na then
        (items.filter (fun it => it.namentliche_abstimmung ≠ 0)).map
          (fun it => create_na_event it (clamped_end it) na_alarm now) else []) ∧
      sw_components comps = (if show_sw then
        sw_components (add_sitting_week_events now
          (items.foldl (fun acc it => setInsert acc (item_week_key it)) [])) else []) := by
  obtain ⟨comps, weeksOut, hbuild, hweeks, hna, hsw⟩ :=
    build_items_spec include_na na_alarm now items [] h
  refine ⟨comps ++ (if show_sw then add_sitting_week_events now weeksOut else []),
    ?_, ?_, ?_⟩
  · simp only [create_ical, hbuild]
  · by_cases hssw : show_sw <;>
      simp [hssw, hna, hweeks, na_components_sitting_weeks]
  · by_cases hssw : show_sw <;> simp [hssw, hsw, hweeks]

/-- The row dict holds `(k, None)` exactly for the nullable fields that are
null in the item. -/
lemma mem_none_dict (it : AgendaItem) (k : String) :
    (k, PyVal.none_) ∈ dictOf it ↔
      ((k = "top" ∧ it.top = none) ∨ (k = "url" ∧ it.url = none) ∨
        (k = "status" ∧ it.status = none)) := by
  obtain ⟨i, yr, wk, st, en, top, th, be, url, stat, na, u, d⟩ := it
  cases top <;> cases url <;> cases stat <;> simp [dictOf]

/-! ### Claims -/

/-- C1: for every valid `(week, year)` pair (year in the `datetime` range,
`1 ≤ week ≤ iso_weeks_in_year year`), `get_monday_of_iso_week` returns a
Monday, and `get_week_number` of that date is `week`.  This holds with no
year-boundary exceptions: the exception clause in the claim is vacuous for
valid pairs (the Monday of week 1 may fall in the preceding calendar year,
but its ISO week number is still 1). -/
theorem C1_monday_of_iso_week_roundtrip (year week : Int)
    (hy1 : 1 ≤ year) (hy2 : year ≤ 9999)
    (hw1 : 1 ≤ week) (hw2 : week ≤ iso_weeks_in_year year) :
    weekday (get_monday_of_iso_week week year) = 0 ∧
    get_week_number (get_monday_of_iso_week week year) = week := by
  have hmo := monday_ord week year
  have hw1m := w1m_spec year
  refine ⟨?_, ?_⟩
  · simp only [weekday]
    rw [hmo]
    omega
  · simp only [get_week_number]
    rw [hmo]
    exact monday_week_number year week hw1 hw2

/-- Witness for C1 at the 53-week year 2026. -/
theorem C1_monday_of_iso_week_roundtrip_witness :
    ((1:Int) ≤ 2026 ∧ (2026:Int) ≤ 9999 ∧ (1:Int) ≤ 53 ∧
      (53:Int) ≤ iso_weeks_in_year 2026) ∧
    weekday (get_monday_of_iso_week 53 2026) = 0 ∧
    get_week_number (get_monday_of_iso_week 53 2026) = 53 :=
  ⟨⟨by norm_num, by norm_num, by norm_num, by decide⟩,
   C1_monday_of_iso_week_roundtrip 2026 53 (by norm_num) (by norm_num)
     (by norm_num) (by decide)⟩

/-- C6 counterexample: the labels `"a b"` and `"a  b"` differ only in a run
of consecutive spaces, yet their identifiers differ (each space becomes its
own hyphen: `-a-b` versus `-a--b`), refuting the space-run-collapse part of
the claim. -/
theorem C6_space_run_counterexample :
    generate_uid 0 "a b" "" ≠ generate_uid 0 "a  b" "" := by decide

/-- C6 (amended): `generate_uid` is deterministic and pure — equal inputs
give equal identifiers — and labels that agree after per-character
lowercasing (in particular, labels differing only in letter case) produce
the same identifier.  (Labels differing in runs of spaces do NOT collapse;
see the counterexample.) -/
theorem C6_generate_uid_deterministic_case_insensitive
    (t1 t2 : DateTime) (l1 l2 s1 s2 : String)
    (ht : t1 = t2) (hl : py_lower l1 = py_lower l2) (hs : s1 = s2) :
    generate_uid t1 l1 s1 = generate_uid t2 l2 s2 := by
  subst ht
  subst hs
  simp only [generate_uid, hl]

/-- Witness for C6 on a case-only pair of labels. -/
theorem C6_generate_uid_witness :
    py_lower "Namentliche Abstimmung" = py_lower "NAMENTLICHE ABSTIMMUNG" ∧
    generate_uid 0 "Namentliche Abstimmung" "" =
      generate_uid 0 "NAMENTLICHE ABSTIMMUNG" "" :=
  ⟨by decide, C6_generate_uid_deterministic_case_insensitive 0 0 _ _ "" "" rfl
    (by decide) rfl⟩

/-- C10: two distinct labels whose slugs agree on their first 30 characters
yield identical identifiers for equal timestamp and suffix — the
truncation makes `generate_uid` non-injective in the label. -/
theorem C10_truncation_collision (t : DateTime) (s l1 l2 : String)
    (hne : l1 ≠ l2)
    (h : py_take (py_replace_space_hyphen (py_lower l1)) 30 =
      py_take (py_replace_space_hyphen (py_lower l2)) 30) :
    generate_uid t l1 s = generate_uid t l2 s := by
  simp only [generate_uid, h]

/-- Witness for C10: 32-character labels differing only after position 30. -/
theorem C10_truncation_collision_witness :
    ("abcdefghijklmnopqrstuvwxyz012345" : String) ≠
      "abcdefghijklmnopqrstuvwxyz0123ZZ" ∧
    generate_uid 0 "abcdefghijklmnopqrstuvwxyz012345" "" =
      generate_uid 0 "abcdefghijklmnopqrstuvwxyz0123ZZ" "" :=
  ⟨by decide, C10_truncation_collision 0 "" _ _ (by decide) (by decide)⟩

/-- C2 counterexample: two items in the same ISO week (week 1 of ISO year
2025) but different calendar years produce TWO sitting-week events, while
the number of distinct ISO (year, week) pairs is one — the code keys
`weeks_with_items` by `dtstart.year` (calendar year), not the ISO year, so
the count is not the number of distinct ISO pairs. -/
theorem C2_sitting_week_iso_pair_counterexample :
    (sw_components (ok_components
      (create_ical [item_dec, item_jan] false false true 0))).length = 2 ∧
    (([item_dec, item_jan].map item_iso_pair).dedup).length = 1 := by
  constructor <;> decide

/-- C2 (amended): with the show-sitting-weeks option set, the build emits
exactly one sitting-week event per distinct (calendar year of start,
ISO week number of start) key among the items handed to the builder (the
already-filtered set) — the count equals the number of distinct such keys,
independent of how many items fall in each week, and weeks with no items
contribute none. -/
theorem C2_sitting_week_count (items : List AgendaItem)
    (include_na na_alarm : Bool) (now : DateTime)
    (h : ∀ it ∈ items, (fromisoformat it.start).isSome ∧ (fromisoformat it.end_).isSome) :
    ∃ comps, create_ical items include_na na_alarm true now = .ok comps ∧
      (sw_components comps).length = ((items.map item_week_key).dedup).length := by
  obtain ⟨comps, hok, hna, hsw⟩ := create_ical_spec include_na na_alarm true now items h
  refine ⟨comps, hok, ?_⟩
  rw [hsw, if_pos rfl, sw_len_of_sitting]
  exact foldl_setInsert_key_length item_week_key items

/-- Witness for C2 on the two-item December/January list. -/
theorem C2_sitting_week_count_witness : ∃ comps,
    create_ical [item_dec, item_jan] false false true 0 = .ok comps ∧
    (sw_components comps).length =
      (([item_dec, item_jan].map item_week_key).dedup).length :=
  C2_sitting_week_count [item_dec, item_jan] false false 0 (by decide)

/-- C3: with the include-named-votes option enabled, the named-vote
companion events are exactly one per flagged item, in item order, each
built by `create_na_event` from the item's clamped end; and every such
companion starts at the parent's (possibly clamped) end and ends 15
minutes later. -/
theorem C3_named_vote_companions (items : List AgendaItem)
    (na_alarm show_sw : Bool) (now : DateTime)
    (h : ∀ it ∈ items, (fromisoformat it.start).isSome ∧ (fromisoformat it.end_).isSome) :
    ∃ comps, create_ical items true na_alarm show_sw now = .ok comps ∧
      na_components comps = (items.filter (fun it => it.namentliche_abstimmung ≠ 0)).map
        (fun it => create_na_event it (clamped_end it) na_alarm now) ∧
      (∀ it : AgendaItem,
        (create_na_event it (clamped_end it) na_alarm now).dtstart = clamped_end it ∧
        (create_na_event it (clamped_end it) na_alarm now).dtend = clamped_end it + 15 * 60) := by
  obtain ⟨comps, hok, hna, hsw⟩ := create_ical_spec true na_alarm show_sw now items h
  refine ⟨comps, hok, by simpa using hna, ?_⟩
  intro it
  exact ⟨rfl, rfl⟩

/-- Witness for C3 on a flagged sample item. -/
theorem C3_named_vote_companions_witness : ∃ comps,
    create_ical [item_beratung] true true false 0 = .ok comps ∧
      na_components comps = ([item_beratung].filter
        (fun it => it.namentliche_abstimmung ≠ 0)).map
          (fun it => create_na_event it (clamped_end it) true 0) ∧
      (∀ it : AgendaItem,
        (create_na_event it (clamped_end it) true 0).dtstart = clamped_end it ∧
        (create_na_event it (clamped_end it) true 0).dtend = clamped_end it + 15 * 60) :=
  C3_named_vote_companions [item_beratung] true false 0 (by decide)

/-- C4: the status filter keeps exactly the items whose status is non-null,
non-empty, and contains the requested string as a substring; in particular
an item with status `"in Beratung, erledigt"` is retained under the filter
`"erledigt"`. -/
theorem C4_status_substring_filter :
    (∀ (items : List AgendaItem) (status : String) (it : AgendaItem),
      it ∈ filter_by_status items status ↔
        it ∈ items ∧ ∃ s, it.status = some s ∧ s ≠ "" ∧
          List.IsInfix status.data s.data) ∧
    filter_by_status [item_beratung] "erledigt" = [item_beratung] := by
  constructor
  · intro items status it
    cases hst : it.status with
    | none => simp [filter_by_status, List.mem_filter, truthy, hst]
    | some s => simp [filter_by_status, List.mem_filter, truthy, py_in, hst]
  · decide

/-- C5: for every item and every field key, a null field produces no child
element in the item's XML `<event>` element but is still a key of the
item's JSON object, while every non-null field produces an XML child and a
JSON key. -/
theorem C5_xml_omits_null_json_keeps (it : AgendaItem) (k : String) :
    ((k, PyVal.none_) ∈ dictOf it →
      k ∉ (xml_event it).children.map Xml.tag ∧ (k, JValue.null) ∈ json_fields it) ∧
    (∀ v, (k, v) ∈ dictOf it → v ≠ PyVal.none_ →
      k ∈ (xml_event it).children.map Xml.tag ∧ (k, jval_of v) ∈ json_fields it) := by
  constructor
  · intro hmem
    rw [mem_none_dict] at hmem
    rcases hmem with ⟨hk, h⟩ | ⟨hk, h⟩ | ⟨hk, h⟩ <;> subst hk <;>
      cases htop : it.top <;> cases hurl : it.url <;> cases hstat : it.status <;>
      simp_all [xml_event, dictOf, Xml.tag, Xml.children, json_fields, jval_of]
  · intro v hmem hv
    cases htop : it.top <;> cases hurl : it.url <;> cases hstat : it.status <;>
      simp_all [xml_event, dictOf, Xml.tag, Xml.children, json_fields, jval_of, py_str_of] <;>
      rcases hmem with h | h | h | h | h | h | h | h | h | h | h | h | h <;>
      simp_all

/-- Witness for C5 at an item with a null `top` field. -/
theorem C5_xml_omits_null_json_keeps_witness :
    (("top", PyVal.none_) ∈ dictOf item_nulls) ∧
    ("top" ∉ (xml_event item_nulls).children.map Xml.tag ∧
      ("top", JValue.null) ∈ json_fields item_nulls) :=
  ⟨by decide, (C5_xml_omits_null_json_keeps item_nulls "top").1 (by decide)⟩

/-- C7 counterexample.  First half: with the clock at 2027-01-01 the
current ISO year/week is (2026, 53); the request year=2027, week=2 targets
a strictly later ISO week, yet it is served with status 200 instead of the
rejection (the code compares the requested week against the current ISO
week number only when the requested year equals the current *calendar*
year).  Second half: with the clock at 2025-12-29 the current ISO
year/week is (2026, 1); the request year=2025, week=50 targets a strictly
earlier ISO week, yet it IS rejected (50 > current ISO week number 1). -/
theorem C7_future_window_counterexample :
    (isocalendar (toordinal (py_datetime 2027 1 1))).1 = 2026 ∧
    (isocalendar (toordinal (py_datetime 2027 1 1))).2.1 = 53 ∧
    serve_agenda [] "ical"
      ⟨some "2027", some "2", none, none, none, none, none, none⟩
      (py_datetime 2027 1 1) = .ok (.cal [], 200, "text/calendar; charset=utf-8") ∧
    (isocalendar (toordinal (py_datetime 2025 12 29))).1 = 2026 ∧
    (isocalendar (toordinal (py_datetime 2025 12 29))).2.1 = 1 ∧
    serve_agenda [] "ical"
      ⟨some "2025", some "50", none, none, none, none, none, none⟩
      (py_datetime 2025 12 29) = .ok rejection_response :=
  ⟨by decide, by decide, rfl, by decide, by decide, rfl⟩

/-- C7 (amended): a request is answered with the fixed rejection message
iff its resolved year exceeds the current *calendar* year, or equals it
while a truthy week parameter parses to a number exceeding the ISO week
number of the current date; and whether it is rejected does not depend on
the stored rows (the check happens before any items are fetched, filtered
or serialized). -/
theorem C7_future_window_check (rows rows2 : List AgendaItem) (p : Params)
    (now : DateTime) (format : String) (yv : Int)
    (hyear : (match p.year with | some s => pyint s | none => .ok (dt_year now)) =
      Except.ok yv)
    (hwk : ∀ s, p.week = some s → s ≠ "" → ∃ w, pyint s = .ok w) :
    (serve_agenda rows format p now = .ok rejection_response ↔
      (dt_year now < yv ∨ (yv = dt_year now ∧ ∃ s w, p.week = some s ∧ s ≠ "" ∧
        pyint s = .ok w ∧ get_week_number now < w))) ∧
    (serve_agenda rows format p now = .ok rejection_response →
      serve_agenda rows2 format p now = .ok rejection_response) := by
  have hmain : ∀ rs : List AgendaItem,
      (serve_agenda rs format p now = .ok rejection_response ↔
        (dt_year now < yv ∨ (yv = dt_year now ∧ ∃ s w, p.week = some s ∧ s ≠ "" ∧
          pyint s = .ok w ∧ get_week_number now < w))) := by
    intro rs
    simp only [serve_agenda, hyear]
    by_cases h1 : yv > dt_year now
    · rw [iff_true_intro (Or.inl h1), iff_true, if_pos h1]
      rfl
    · by_cases h2 : yv = dt_year now ∧ truthy p.week
      · obtain ⟨h2a, h2b⟩ := h2
        cases hpw : p.week with
        | none => rw [hpw] at h2b; simp [truthy] at h2b
        | some s =>
          rw [hpw] at h2b
          have hs : s ≠ "" := by simpa [truthy] using h2b
          obtain ⟨w, hw⟩ := hwk s hpw hs
          by_cases h3 : w > get_week_number now
          · rw [iff_true_intro (Or.inr ⟨h2a, s, w, rfl, hs, hw, h3⟩), iff_true]
            rw [if_neg h1, if_pos ⟨h2a, h2b⟩]
            simp only [Option.getD_some, hw, decide_eq_true h3]
            rfl
          · have hR : ¬(dt_year now < yv ∨ (yv = dt_year now ∧
                ∃ s2 w2, some s = some s2 ∧ s2 ≠ "" ∧ pyint s2 = .ok w2 ∧
                  get_week_number now < w2)) := by
              rintro (hlt | ⟨heq, s2, w2, hps2, hs2, hw2, hgt⟩)
              · exact h1 hlt
              · injection hps2 with he
                subst he
                rw [hw] at hw2
                injection hw2 with hwe
                subst hwe
                exact h3 hgt
            rw [iff_false_intro hR, iff_false]
            intro hX
            rw [if_neg h1, if_pos ⟨h2a, h2b⟩] at hX
            simp only [Option.getD_some, hw, decide_eq_false h3] at hX
            repeat' (first
              | (simp [rejection_response] at hX)
              | split at hX)
      · have hR : ¬(dt_year now < yv ∨ (yv = dt_year now ∧
            ∃ s2 w2, p.week = some s2 ∧ s2 ≠ "" ∧ pyint s2 = .ok w2 ∧
              get_week_number now < w2)) := by
          rintro (hlt | ⟨heq, s2, w2, hps2, hs2, hw2, hgt⟩)
          · exact h1 hlt
          · exact h2 ⟨heq, by rw [hps2]; simpa [truthy] using hs2⟩
        rw [iff_false_intro hR, iff_false]
        intro hX
        rw [if_neg h1, if_neg h2] at hX
        repeat' (first
          | (simp [rejection_response] at hX)
          | split at hX)
  exact ⟨hmain rows, fun hr => (hmain rows2).mpr ((hmain rows).mp hr)⟩

/-- Witness for C7: a request for year 2030 with no week, against a clock
in mid-2026, instantiating the characterisation. -/
theorem C7_future_window_check_witness :
    (serve_agenda [] "json" wit_params wit_now = .ok rejection_response ↔
      (dt_year wit_now < 2030 ∨ (2030 = dt_year wit_now ∧ ∃ s w,
        wit_params.week = some s ∧ s ≠ "" ∧ pyint s = .ok w ∧
        get_week_number wit_now < w))) ∧
    (serve_agenda [] "json" wit_params wit_now = .ok rejection_response →
      serve_agenda [] "json" wit_params wit_now = .ok rejection_response) :=
  C7_future_window_check [] [] wit_params wit_now "json" 2030 rfl
    (fun s hs => nomatch hs)

/-- C8: the CSV serializer fails with `IndexError` on an empty item list
(header derivation subscripts the first item), and on every non-empty list
returns the header row taken from the first item's field names followed by
one data row per item. -/
theorem C8_csv_empty_fails_nonempty_rows :
    create_csv ([] : List AgendaItem) = .error "IndexError: list index out of range" ∧
    ∀ (it : AgendaItem) (its : List AgendaItem), ∃ rows,
      create_csv (it :: its) = .ok rows ∧
      rows.length = (it :: its).length + 1 ∧
      rows.head? = some ((dictOf it).map Prod.fst) := by
  refine ⟨rfl, ?_⟩
  intro it its
  refine ⟨_, rfl, ?_, rfl⟩
  simp [create_csv]

/-- C9: the day-only selection branch crashes.  First conjunct: with
`day` supplied but `week` and `month` absent, the code evaluates
`month.zfill(2)` on `None` and raises `AttributeError`, so the day case
never "completes without failure" as the claim states.  The remaining
conjuncts confirm the week > month precedence and the whole-year fallback
on concrete rows. -/
theorem C9_day_branch_attribute_error :
    get_agenda_items [] 2024 none none (some "5") =
      .error "AttributeError: NoneType object has no attribute zfill" ∧
    get_agenda_items [item_beratung, item_nulls] 2024 (some "2") (some "12") (some "31") =
      .ok [item_beratung] ∧
    get_agenda_items [item_beratung, item_nulls] 2024 none (some "2") (some "31") =
      .ok [item_nulls] ∧
    get_agenda_items [item_beratung, item_nulls] 2024 none none none =
      .ok [item_beratung, item_nulls] :=
  ⟨rfl, by decide, by decide, by decide⟩
